import Mathlib

/-!
Shallow embedding of the SMS.ir API client (src/SMS.py) and proofs about it.

The Python module defines an `APIError` exception type, a standalone
`fetch_data` helper and an `SMSClient` class whose `_request` method is the
single dispatch chokepoint.  The network is modelled as an oracle
`net : HttpRequest → HttpOutcome` giving, for the request actually issued,
either an HTTP response (status and decoded JSON body) or a transport-level
failure.  Raising an exception is modelled with `Except`, and every client
operation additionally returns the list of HTTP requests it dispatched, so
that "no network call was attempted" is the statement that this list is empty.
-/

namespace SMS

/-- JSON-like structured values, as decoded by `response.json()`. -/
inductive Json where
  | null
  | bool (b : Bool)
  | num (n : Int)
  | str (s : String)
  | arr (elems : List Json)
  | obj (fields : List (String × Json))

/-- First value bound to `key` in an association list of JSON object fields. -/
def lookupField : List (String × Json) → String → Option Json
  | [], _ => none
  | (k, v) :: rest, key => if k = key then some v else lookupField rest key

/-- Python's `dict.get(key)` with its default of `None`.  The client only ever
applies it to object responses (on a non-dict Python would raise
`AttributeError`; that case is modelled as absent). -/
def Json.get (j : Json) (key : String) : Option Json :=
  match j with
  | .obj fields => lookupField fields key
  | _ => none

/-- `APIError(message, status_code=None)` from src/SMS.py: a message plus an
optional HTTP status code. -/
structure APIError where
  message : String
  status_code : Option Nat
deriving DecidableEq

/-- `APIError.__str__`: the Python code runs `if self.status_code:` — a
truthiness test, under which both `None` and `0` take the plain branch. -/
def APIError.str (e : APIError) : String :=
  match e.status_code with
  | some code =>
      if code ≠ 0 then "APIError " ++ toString code ++ ": " ++ e.message
      else "APIError: " ++ e.message
  | none => "APIError: " ++ e.message

/-- Outcome of one HTTP exchange: either a response was received (its status,
its body decoded as JSON, and the text the raised `requests` exception renders
to when the status is an error), or the exchange failed at the transport level
before any response arrived (`errDesc` is the exception's text). -/
inductive HttpOutcome where
  | response (status : Nat) (body : Json) (errDesc : String)
  | transportError (errDesc : String)

/-- `requests.Response.raise_for_status` raises `HTTPError` exactly for
4xx client errors and 5xx server errors. -/
def isHttpError (status : Nat) : Prop :=
  (400 ≤ status ∧ status < 500) ∨ (500 ≤ status ∧ status < 600)

instance (status : Nat) : Decidable (isHttpError status) := by
  unfold isHttpError
  infer_instance

/-- `fetch_data(url)` from src/SMS.py: GET the url, `raise_for_status`, return
the decoded JSON; on any `RequestException` raise `APIError` whose status code
is `response.status_code` when a response was received and `None` otherwise
(the `'response' in locals()` test). -/
def fetch_data (url : String) (outcome : HttpOutcome) : Except APIError Json :=
  match url, outcome with
  | _, .response s body _ =>
      if isHttpError s then
        .error ⟨"درخواست به API ناموفق بود", some s⟩
      else .ok body
  | _, .transportError _ =>
      .error ⟨"درخواست به API ناموفق بود", none⟩

/-- The HTTP verbs used by the client. -/
inductive Method where
  | GET
  | POST
  | DELETE
deriving DecidableEq

/-- One outbound HTTP request as handed to `self.session.request`. -/
structure HttpRequest where
  method : Method
  url : String
  headers : List (String × String)
  body : Option Json

/-- `SMSClient.BASE_URL`. -/
def BASE_URL : String := "https://api.sms.ir/v1"

/-- An `SMSClient`: the api key and the session headers installed by
`__init__` via `session.headers.update` (requests' own default headers are
library internals and are not part of the repository's code). -/
structure SMSClient where
  api_key : String
  session_headers : List (String × String)

/-- `SMSClient.__init__(api_key)`. -/
def SMSClient.init (api_key : String) : SMSClient :=
  { api_key := api_key,
    session_headers :=
      [("Content-Type", "application/json"),
       ("Accept", "text/plain"),
       ("x-api-key", api_key)] }

/-- `SMSClient._request(method, endpoint, data=None)`: build the URL, issue
the request with the session headers, `raise_for_status`, return the decoded
JSON; on any `RequestException` raise
`APIError(f"API request failed: {e}")` — note: with no status code.
Also returns the one-element list of requests dispatched. -/
def SMSClient._request (c : SMSClient) (net : HttpRequest → HttpOutcome)
    (method : Method) (endpoint : String) (data : Option Json) :
    Except APIError Json × List HttpRequest :=
  let req : HttpRequest :=
    { method := method,
      url := BASE_URL ++ "/" ++ endpoint,
      headers := c.session_headers,
      body := data }
  let result : Except APIError Json :=
    match net req with
    | .response s body desc =>
        if isHttpError s then
          .error ⟨"API request failed: " ++ desc, none⟩
        else .ok body
    | .transportError desc =>
        .error ⟨"API request failed: " ++ desc, none⟩
  (result, [req])

/-- `SMSClient.send_sms(mobile, template_id, parameters)`: POST to
`send/verify` with the payload and return the response. -/
def SMSClient.send_sms (c : SMSClient) (net : HttpRequest → HttpOutcome)
    (mobile : String) (template_id : Int) (parameters : Json) :
    Except APIError Json × List HttpRequest :=
  let data := Json.obj
    [("mobile", .str mobile), ("templateId", .num template_id),
     ("parameters", parameters)]
  c._request net .POST "send/verify" (some data)

/-- `SMSClient.send_bulk_sms(mobiles, template_id, parameters)`: the dict
comprehension `{mobile: self.send_sms(...) for mobile in mobiles}` evaluates
the sends left to right, and an exception raised by any one of them aborts the
comprehension and propagates — no mapping is produced. -/
def SMSClient.send_bulk_sms (c : SMSClient) (net : HttpRequest → HttpOutcome)
    (mobiles : List String) (template_id : Int) (parameters : Json) :
    Except APIError (List (String × Json)) × List HttpRequest :=
  match mobiles with
  | [] => (.ok [], [])
  | m :: rest =>
    match c.send_sms net m template_id parameters with
    | (.ok r, t) =>
      match c.send_bulk_sms net rest template_id parameters with
      | (.ok rs, t2) => (.ok ((m, r) :: rs), t ++ t2)
      | (.error e, t2) => (.error e, t ++ t2)
    | (.error e, t) => (.error e, t)

/-- `SMSClient.check_credit()`: GET `credit` and return
`response.get("credit")`. -/
def SMSClient.check_credit (c : SMSClient) (net : HttpRequest → HttpOutcome) :
    Except APIError (Option Json) × List HttpRequest :=
  match c._request net .GET "credit" none with
  | (.ok response, t) => (.ok (response.get "credit"), t)
  | (.error e, t) => (.error e, t)

/-- A Python `datetime` value, to the precision `strftime` uses here. -/
structure Datetime where
  year : Nat
  month : Nat
  day : Nat
  hour : Nat
  minute : Nat
  second : Nat

/-- The `send_time` argument of `schedule_sms`: either a `datetime` instance
or some other Python value (`isinstance(send_time, datetime)` fails). -/
inductive SendTime where
  | dt (d : Datetime)
  | other (desc : String)

/-- Zero-pad a decimal rendering to `width` digits. -/
def pad (width : Nat) (n : Nat) : String :=
  let s := toString n
  if s.length < width then String.mk (List.replicate (width - s.length) '0') ++ s
  else s

/-- `send_time.strftime("%Y-%m-%d %H:%M:%S")`. -/
def Datetime.strftime (d : Datetime) : String :=
  pad 4 d.year ++ "-" ++ pad 2 d.month ++ "-" ++ pad 2 d.day ++ " " ++
  pad 2 d.hour ++ ":" ++ pad 2 d.minute ++ ":" ++ pad 2 d.second

/-- Exceptions escaping the client's methods: `APIError` from the dispatch
layer, or the `ValueError` raised by `schedule_sms`'s type check. -/
inductive PyError where
  | api (e : APIError)
  | valueError (msg : String)
deriving DecidableEq

/-- `SMSClient.schedule_sms(mobile, template_id, parameters, send_time)`:
reject a non-`datetime` `send_time` with `ValueError` before anything else;
otherwise format the time, POST to `send/schedule`, return the response. -/
def SMSClient.schedule_sms (c : SMSClient) (net : HttpRequest → HttpOutcome)
    (mobile : String) (template_id : Int) (parameters : Json)
    (send_time : SendTime) : Except PyError Json × List HttpRequest :=
  match send_time with
  | .other _ =>
      (.error (.valueError "فرمت زمان ارسال باید یک شیء datetime باشد."), [])
  | .dt d =>
      let formatted_time := d.strftime
      let data := Json.obj
        [("mobile", .str mobile), ("templateId", .num template_id),
         ("parameters", parameters), ("sendDateTime", .str formatted_time)]
      match c._request net .POST "send/schedule" (some data) with
      | (.ok body, t) => (.ok body, t)
      | (.error e, t) => (.error (.api e), t)

/-- `SMSClient.get_sms_status(message_id)`: GET `sms/status/{id}` and return
`response.get("status")`. -/
def SMSClient.get_sms_status (c : SMSClient) (net : HttpRequest → HttpOutcome)
    (message_id : String) :
    Except APIError (Option Json) × List HttpRequest :=
  match c._request net .GET ("sms/status/" ++ message_id) none with
  | (.ok response, t) => (.ok (response.get "status"), t)
  | (.error e, t) => (.error e, t)

/-- A concrete network for the bulk-send scenario: recipient "A"'s send gets a
500 response, every other request gets a 200 response. -/
def netAB : HttpRequest → HttpOutcome := fun r =>
  match r.body with
  | some (Json.obj (("mobile", Json.str "A") :: _)) =>
      .response 500 (Json.obj []) "500 Server Error"
  | _ => .response 200 (Json.obj [("delivered", Json.bool true)]) ""

end SMS

namespace SMS

/-- C1 counterexample: a dispatch through `SMSClient._request` that completes
with a 404 response raises an `APIError` whose `status_code` is `none`, not
`some 404` as the claim requires. -/
theorem C1_counterexample :
    ((SMSClient.init "K")._request (fun _ => .response 404 (Json.obj []) "boom")
        .GET "credit" none).1
      = .error ⟨"API request failed: boom", none⟩
    ∧ (none : Option Nat) ≠ some 404 := by
  refine ⟨?_, by decide⟩
  rfl

/-- C1 amended: for every exchange completing with an error status (4xx/5xx),
`SMSClient._request` raises an `APIError` whose `status_code` is `none` — the
received status survives only inside the message text; the standalone
`fetch_data` helper, by contrast, does attach the received status code. -/
theorem C1_amended_status_dropped (c : SMSClient) (method : Method)
    (endpoint : String) (data : Option Json) (url : String)
    (s : Nat) (body : Json) (desc : String)
    (h4 : 400 ≤ s) (h6 : s < 600) :
    (c._request (fun _ => .response s body desc) method endpoint data).1
      = .error ⟨"API request failed: " ++ desc, none⟩
    ∧ fetch_data url (.response s body desc)
      = .error ⟨"درخواست به API ناموفق بود", some s⟩ := by
  have h : isHttpError s := by unfold isHttpError; omega
  constructor
  · simp only [SMSClient._request, if_pos h]
  · simp only [fetch_data, if_pos h]

/-- Witness for C1's amended theorem at status 404. -/
theorem C1_amended_witness :
    (((SMSClient.init "K")._request (fun _ => .response 404 (Json.obj []) "boom")
        .GET "credit" none).1
      = .error ⟨"API request failed: boom", none⟩)
    ∧ fetch_data "https://api.example.com/data"
        (.response 404 (Json.obj []) "boom")
      = .error ⟨"درخواست به API ناموفق بود", some 404⟩ :=
  C1_amended_status_dropped (SMSClient.init "K") .GET "credit" none
    "https://api.example.com/data" 404 (Json.obj []) "boom"
    (by decide) (by decide)

/-- C2 counterexample: bulk send over ["A", "B"] where A's send gets a 500
response and B's would get a 200 response does not return a mapping at all:
the dict comprehension propagates A's `APIError`, and the dispatch trace shows
only A's request was issued (B's call never happened). -/
theorem C2_counterexample :
    (SMSClient.init "K").send_bulk_sms netAB ["A", "B"] 1 (Json.arr [])
      = (.error ⟨"API request failed: 500 Server Error", none⟩,
         [{ method := .POST,
            url := "https://api.sms.ir/v1/send/verify",
            headers := [("Content-Type", "application/json"),
                        ("Accept", "text/plain"), ("x-api-key", "K")],
            body := some (Json.obj
              [("mobile", .str "A"), ("templateId", .num 1),
               ("parameters", Json.arr [])]) }]) := by
  rfl

/-- C2 amended: when the first recipient's send raises, `send_bulk_sms`
propagates that `APIError` immediately: no result mapping is returned, and the
only requests dispatched are those of the failing send — the second
recipient's call is never issued. -/
theorem C2_amended_first_failure_aborts (c : SMSClient)
    (net : HttpRequest → HttpOutcome) (template_id : Int) (parameters : Json)
    (A B : String) (e : APIError)
    (h : (c.send_sms net A template_id parameters).1 = .error e) :
    c.send_bulk_sms net [A, B] template_id parameters
      = (.error e, (c.send_sms net A template_id parameters).2) := by
  unfold SMSClient.send_bulk_sms
  rcases hA : c.send_sms net A template_id parameters with ⟨r, t⟩
  rw [hA] at h
  simp only at h
  subst h
  simp

/-- Witness for C2's amended theorem with the concrete `netAB` network. -/
theorem C2_amended_witness :
    (SMSClient.init "K").send_bulk_sms netAB ["A", "B"] 1 (Json.arr [])
      = (.error ⟨"API request failed: 500 Server Error", none⟩,
         ((SMSClient.init "K").send_sms netAB "A" 1 (Json.arr [])).2) :=
  C2_amended_first_failure_aborts (SMSClient.init "K") netAB 1 (Json.arr [])
    "A" "B" ⟨"API request failed: 500 Server Error", none⟩ rfl

/-- C3 (confirmed): a transport-level failure — no HTTP response received —
makes both `SMSClient._request` and `fetch_data` raise an `APIError` whose
`status_code` is `none`. -/
theorem C3_transport_no_status (c : SMSClient) (method : Method)
    (endpoint : String) (data : Option Json) (url desc : String) :
    (c._request (fun _ => .transportError desc) method endpoint data).1
      = .error ⟨"API request failed: " ++ desc, none⟩
    ∧ fetch_data url (.transportError desc)
      = .error ⟨"درخواست به API ناموفق بود", none⟩ :=
  ⟨rfl, rfl⟩

/-- C4 counterexample: `0` is a present status code, yet rendering
`APIError("X", 0)` yields `"APIError: X"`, not `"APIError 0: X"` as the claim
requires — the Python code tests truthiness, not presence. -/
theorem C4_counterexample :
    APIError.str ⟨"X", some 0⟩ = "APIError: X"
    ∧ "APIError: X" ≠ "APIError 0: X" :=
  ⟨rfl, by decide⟩

/-- C4 amended: rendering yields `"APIError <s>: <m>"` when the status code is
present and nonzero, and `"APIError: <m>"` when it is `None` (or zero); in
particular `("X", 404)` renders `"APIError 404: X"` and `("Y", None)` renders
`"APIError: Y"`. -/
theorem C4_amended_render (m : String) (s : Nat) :
    (s ≠ 0 → APIError.str ⟨m, some s⟩ = "APIError " ++ toString s ++ ": " ++ m)
    ∧ APIError.str ⟨m, none⟩ = "APIError: " ++ m
    ∧ APIError.str ⟨"X", some 404⟩ = "APIError 404: X"
    ∧ APIError.str ⟨"Y", none⟩ = "APIError: Y" := by
  refine ⟨fun hs => ?_, rfl, rfl, rfl⟩
  simp only [APIError.str, if_pos hs]

/-- Witness for C4's amended theorem at message "X", status 404. -/
theorem C4_amended_witness :
    APIError.str ⟨"X", some 404⟩ = "APIError " ++ toString 404 ++ ": " ++ "X" :=
  (C4_amended_render "X" 404).1 (by decide)

/-- C5 (confirmed): every request dispatched by `SMSClient._request`, for
every verb, endpoint and body, carries the configured credential in its
`x-api-key` header. -/
theorem C5_credential_header (api_key : String)
    (net : HttpRequest → HttpOutcome) (method : Method)
    (endpoint : String) (data : Option Json) :
    (((SMSClient.init api_key)._request net method endpoint data).2).all
      (fun r => r.headers.contains ("x-api-key", api_key)) = true := by
  simp [SMSClient._request, SMSClient.init, List.contains]

/-- C6 (confirmed): for every exchange completing with a 2xx status,
`SMSClient._request` returns exactly the JSON value decoded from the response
body — nothing added, removed or renamed. -/
theorem C6_success_verbatim (c : SMSClient) (method : Method)
    (endpoint : String) (data : Option Json)
    (s : Nat) (body : Json) (desc : String)
    (h2 : 200 ≤ s) (h3 : s < 300) :
    (c._request (fun _ => .response s body desc) method endpoint data).1
      = .ok body := by
  have h : ¬ isHttpError s := by unfold isHttpError; omega
  simp only [SMSClient._request, if_neg h]

/-- Witness for C6 at status 200. -/
theorem C6_witness :
    ((SMSClient.init "K")._request
        (fun _ => .response 200 (Json.obj [("credit", Json.num 7)]) "")
        .GET "credit" none).1
      = .ok (Json.obj [("credit", Json.num 7)]) :=
  C6_success_verbatim (SMSClient.init "K") .GET "credit" none 200
    (Json.obj [("credit", Json.num 7)]) "" (by decide) (by decide)

/-- C7 (confirmed): `schedule_sms` with a non-`datetime` send time raises
`ValueError` and its dispatch trace is empty — the dispatcher is never
invoked, so no outbound request is issued. -/
theorem C7_schedule_rejects_non_datetime (c : SMSClient)
    (net : HttpRequest → HttpOutcome) (mobile : String) (template_id : Int)
    (parameters : Json) (desc : String) :
    c.schedule_sms net mobile template_id parameters (.other desc)
      = (.error (.valueError "فرمت زمان ارسال باید یک شیء datetime باشد."),
         []) :=
  rfl

/-- C8 (confirmed): when GET `credit` yields a 200 response decoding to the
object with field "credit" bound to 1500, `check_credit` returns the
extracted value 1500 (as `some`, the model's present-value marker). -/
theorem C8_check_credit_extracts (c : SMSClient) (desc : String) :
    (c.check_credit
        (fun _ => .response 200 (Json.obj [("credit", Json.num 1500)]) desc)).1
      = .ok (some (Json.num 1500)) :=
  rfl

/-- C9 (confirmed): when a successful (200) response object lacks the expected
field, `check_credit` and `get_sms_status` return the absent marker (`None`)
rather than raising. -/
theorem C9_missing_field_none (c : SMSClient) (fields : List (String × Json))
    (desc message_id : String)
    (hc : lookupField fields "credit" = none)
    (hs : lookupField fields "status" = none) :
    (c.check_credit (fun _ => .response 200 (Json.obj fields) desc)).1
      = .ok none
    ∧ (c.get_sms_status (fun _ => .response 200 (Json.obj fields) desc)
        message_id).1
      = .ok none := by
  have h : ¬ isHttpError 200 := by unfold isHttpError; omega
  constructor
  · simp only [SMSClient.check_credit, SMSClient._request, if_neg h, Json.get,
      hc]
  · simp only [SMSClient.get_sms_status, SMSClient._request, if_neg h,
      Json.get, hs]

/-- Witness for C9 at the empty response object. -/
theorem C9_witness :
    ((SMSClient.init "K").check_credit
        (fun _ => .response 200 (Json.obj []) "")).1 = .ok none
    ∧ ((SMSClient.init "K").get_sms_status
        (fun _ => .response 200 (Json.obj []) "") "42").1 = .ok none :=
  C9_missing_field_none (SMSClient.init "K") [] "" "42" rfl rfl

/-- C10 (confirmed): a present status code equal to zero renders exactly like
an absent one: `APIError(m, 0)` renders as `"APIError: <m>"`. -/
theorem C10_zero_status_renders_plain (m : String) :
    APIError.str ⟨m, some 0⟩ = "APIError: " ++ m
    ∧ APIError.str ⟨m, some 0⟩ = APIError.str ⟨m, none⟩ :=
  ⟨rfl, rfl⟩

end SMS
